import Mathlib

/-!
Verification of the `lcd.py` I2C character-LCD driver (Zerynth_LCD_IIC).

The driver is a register-programming sequence: every public operation is a
sequence of transport writes and fixed delays, together with updates to three
persisted flag bytes (`_backlightval`, `_displaycontrol`, `_displaymode`).
We embed it shallowly: each Python method becomes a Lean function from the
driver state to the new state paired with the trace of externally visible
events (buffers handed to the I2C transport `self.write`, and `sleep` calls).
-/

namespace LCDModel

/-! ### Constants (from `src/lcd.py`, top of file) -/

def LCD_CMD_CLEARDISPLAY : Nat := 0x01
def LCD_CMD_RETURNHOME : Nat := 0x02
def LCD_CMD_ENTRYMODESET : Nat := 0x04
def LCD_CMD_DISPLAYCONTROL : Nat := 0x08
def LCD_CMD_CURSORSHIFT : Nat := 0x10
def LCD_CMD_FUNCTIONSET : Nat := 0x20
def LCD_CMD_SETCGRAMADDR : Nat := 0x40
def LCD_CMD_SETDDRAMADDR : Nat := 0x80

def LCD_ENTRYRIGHT : Nat := 0x00
def LCD_ENTRYLEFT : Nat := 0x02
def LCD_ENTRYSHIFTINCREMENT : Nat := 0x01
def LCD_ENTRYSHIFTDECREMENT : Nat := 0x00

def LCD_DISPLAYON : Nat := 0x04
def LCD_DISPLAYOFF : Nat := 0x00
def LCD_CURSORON : Nat := 0x02
def LCD_CURSOROFF : Nat := 0x00
def LCD_BLINKON : Nat := 0x01
def LCD_BLINKOFF : Nat := 0x00

def LCD_DISPLAYMOVE : Nat := 0x08
def LCD_CURSORMOVE : Nat := 0x00
def LCD_MOVERIGHT : Nat := 0x04
def LCD_MOVELEFT : Nat := 0x00

def LCD_8BITMODE : Nat := 0x10
def LCD_4BITMODE : Nat := 0x00
def LCD_2LINE : Nat := 0x08
def LCD_1LINE : Nat := 0x00
def LCD_5x10DOTS : Nat := 0x04
def LCD_5x8DOTS : Nat := 0x00

def LCD_BACKLIGHT : Nat := 0x08
def LCD_NOBACKLIGHT : Nat := 0x00

def LCD_MODE_ENABLE : Nat := 0x04
def LCD_MODE_RW : Nat := 0x02
def LCD_MODE_RS : Nat := 0x01

/-! ### Observable events and driver state -/

/-- An externally visible effect of the driver: a buffer handed to the
underlying I2C transport (`self.write(...)`), or a `sleep(ms)` call. -/
inductive Event where
  | i2cWrite (buf : List Nat)
  | sleep (ms : Nat)
deriving DecidableEq, Repr

/-- The persisted flag bytes of the driver object (set in `init`). -/
structure LCDState where
  backlightval : Nat
  displaycontrol : Nat
  displaymode : Nat
deriving DecidableEq, Repr

/-! ### Low-level commands (`src/lcd.py` lines 307-339)

None of these touch the flag bytes, so they are pure trace producers;
`_expanderWrite` reads `self._backlightval`, passed here as `bl`. -/

/-- `_write`: `buffer = bytearray(1)` (one zero byte), `buffer.append(data)`,
then `self.write(bytearray(buffer))`.  The buffer handed to the transport is
therefore the two bytes `[0x00, data]`. -/
def writeBuffer (data : Nat) : List Nat :=
  List.replicate 1 0 ++ [data]

/-- Trace of `_write(data)`: one transport write of `writeBuffer data`,
then `sleep(2)`. -/
def writeTrace (data : Nat) : List Event :=
  [.i2cWrite (writeBuffer data), .sleep 2]

/-- `_expanderWrite(data)`: `self._write(data | self._backlightval)`. -/
def expanderWriteTrace (bl data : Nat) : List Event :=
  writeTrace (data ||| bl)

/-- `_pulseEnable(data)`: write `data | LCD_MODE_ENABLE`, `sleep(1)`,
write `data & ~LCD_MODE_ENABLE`, `sleep(1)`.  Python's `x & ~m` on
non-negative ints is `Nat.ldiff x m`. -/
def pulseEnableTrace (bl data : Nat) : List Event :=
  expanderWriteTrace bl (data ||| LCD_MODE_ENABLE) ++ [.sleep 1] ++
    expanderWriteTrace bl (Nat.ldiff data LCD_MODE_ENABLE) ++ [.sleep 1]

/-- `_write4bits(data)`: `self._expanderWrite(data)` then
`self._pulseEnable(data)`. -/
def write4bitsTrace (bl data : Nat) : List Event :=
  expanderWriteTrace bl data ++ pulseEnableTrace bl data

/-- `highBits = data & 0xF0` in `_send`. -/
def highBits (data : Nat) : Nat := data &&& 0xF0

/-- `lowBits = (data << 4) & 0xF0` in `_send`. -/
def lowBits (data : Nat) : Nat := (data <<< 4) &&& 0xF0

/-- The two 4-bit payloads `_send(data, mode)` hands to `_write4bits`,
in order: `highBits | mode` then `lowBits | mode`. -/
def sendPayloads (data mode : Nat) : List Nat :=
  [highBits data ||| mode, lowBits data ||| mode]

/-- Trace of `_send(data, mode)`. -/
def sendTrace (bl data mode : Nat) : List Event :=
  write4bitsTrace bl (highBits data ||| mode) ++
    write4bitsTrace bl (lowBits data ||| mode)

/-- Trace of `_command(cmd)`: `self._send(cmd, 0)`. -/
def commandTrace (bl cmd : Nat) : List Event :=
  sendTrace bl cmd 0

/-- Trace of `_writeChar(char)`: `self._send(ord(char), LCD_MODE_RS)`.
Characters are modelled by their code points, so `ord` is the identity. -/
def writeCharTrace (bl c : Nat) : List Event :=
  sendTrace bl c LCD_MODE_RS

/-! ### Public operations as state transformers with traces -/

/-- `clear()`: `self._command(LCD_CMD_CLEARDISPLAY)` then `sleep(2)`. -/
def clear (s : LCDState) : LCDState × List Event :=
  (s, commandTrace s.backlightval LCD_CMD_CLEARDISPLAY ++ [.sleep 2])

/-- `home()`: `self._command(LCD_CMD_RETURNHOME)` then `sleep(2)`. -/
def home (s : LCDState) : LCDState × List Event :=
  (s, commandTrace s.backlightval LCD_CMD_RETURNHOME ++ [.sleep 2])

/-- `setBacklight(val)`: set `_backlightval` to `LCD_NOBACKLIGHT` when
`val == 0` and to `LCD_BACKLIGHT` otherwise, then `self._expanderWrite(0)`. -/
def setBacklight (s : LCDState) (val : Nat) : LCDState × List Event :=
  let bl := if val = 0 then LCD_NOBACKLIGHT else LCD_BACKLIGHT
  ({ s with backlightval := bl }, expanderWriteTrace bl 0)

/-- `loadCustomCharacter(char_arr, location)`:
`self._command(LCD_CMD_SETCGRAMADDR | (location << 3))` then
`self._writeChar(char_byte)` for each byte of `char_arr`. -/
def loadCustomCharacter (s : LCDState) (char_arr : List Nat) (location : Nat) :
    LCDState × List Event :=
  (s, commandTrace s.backlightval (LCD_CMD_SETCGRAMADDR ||| (location <<< 3)) ++
      (char_arr.map (writeCharTrace s.backlightval)).flatten)

/-- `setAutoscroll(state)`: `_displaymode |= LCD_ENTRYSHIFTINCREMENT` when
`state` is truthy, else `_displaymode &= ~LCD_ENTRYSHIFTINCREMENT`; then
`self._command(LCD_CMD_DISPLAYCONTROL | self._displaymode)`. -/
def setAutoscroll (s : LCDState) (state : Nat) : LCDState × List Event :=
  let dm := if state ≠ 0 then s.displaymode ||| LCD_ENTRYSHIFTINCREMENT
            else Nat.ldiff s.displaymode LCD_ENTRYSHIFTINCREMENT
  ({ s with displaymode := dm },
   commandTrace s.backlightval (LCD_CMD_DISPLAYCONTROL ||| dm))

/-- `setTextDirection(direction)`: `_displaymode |= LCD_ENTRYLEFT` when
`direction` is truthy, else `_displaymode &= ~LCD_ENTRYLEFT`; then
`self._command(LCD_CMD_DISPLAYCONTROL | self._displaymode)`. -/
def setTextDirection (s : LCDState) (direction : Nat) : LCDState × List Event :=
  let dm := if direction ≠ 0 then s.displaymode ||| LCD_ENTRYLEFT
            else Nat.ldiff s.displaymode LCD_ENTRYLEFT
  ({ s with displaymode := dm },
   commandTrace s.backlightval (LCD_CMD_DISPLAYCONTROL ||| dm))

/-- `scrollLeft()`. -/
def scrollLeft (s : LCDState) : LCDState × List Event :=
  (s, commandTrace s.backlightval
        (LCD_CMD_CURSORSHIFT ||| LCD_DISPLAYMOVE ||| LCD_MOVELEFT))

/-- `scrollRight()`. -/
def scrollRight (s : LCDState) : LCDState × List Event :=
  (s, commandTrace s.backlightval
        (LCD_CMD_CURSORSHIFT ||| LCD_DISPLAYMOVE ||| LCD_MOVERIGHT))

/-- `blinkOn(state)`: `_displaycontrol |= LCD_BLINKON` when truthy, else
`_displaycontrol &= ~LCD_BLINKON`; then
`self._command(LCD_CMD_DISPLAYCONTROL | self._displaycontrol)`. -/
def blinkOn (s : LCDState) (state : Nat) : LCDState × List Event :=
  let dc := if state ≠ 0 then s.displaycontrol ||| LCD_BLINKON
            else Nat.ldiff s.displaycontrol LCD_BLINKON
  ({ s with displaycontrol := dc },
   commandTrace s.backlightval (LCD_CMD_DISPLAYCONTROL ||| dc))

/-- `displayOn(state)`. -/
def displayOn (s : LCDState) (state : Nat) : LCDState × List Event :=
  let dc := if state ≠ 0 then s.displaycontrol ||| LCD_DISPLAYON
            else Nat.ldiff s.displaycontrol LCD_DISPLAYON
  ({ s with displaycontrol := dc },
   commandTrace s.backlightval (LCD_CMD_DISPLAYCONTROL ||| dc))

/-- `cursorOn(state)`. -/
def cursorOn (s : LCDState) (state : Nat) : LCDState × List Event :=
  let dc := if state ≠ 0 then s.displaycontrol ||| LCD_CURSORON
            else Nat.ldiff s.displaycontrol LCD_CURSORON
  ({ s with displaycontrol := dc },
   commandTrace s.backlightval (LCD_CMD_DISPLAYCONTROL ||| dc))

/-- `setCursorPosition(col, row)`:
`self._command(LCD_CMD_SETDDRAMADDR | col + row * 0x40)` (Python `+` and `*`
bind tighter than `|`). -/
def setCursorPosition (s : LCDState) (col row : Nat) : LCDState × List Event :=
  (s, commandTrace s.backlightval (LCD_CMD_SETDDRAMADDR ||| (col + row * 0x40)))

/-- `writeString(string)`: `self._writeChar(char)` for each character,
modelled by code points. -/
def writeString (s : LCDState) (string : List Nat) : LCDState × List Event :=
  (s, (string.map (writeCharTrace s.backlightval)).flatten)

/-- `init()` (`src/lcd.py` lines 83-117): set the three flag bytes, write the
nibble `0x03 << 4` three times with `sleep(5)` after each, write `0x02 << 4`,
then the function-set, display-control and entry-mode commands, then `clear()`
and `home()`. -/
def init (_s : LCDState) : LCDState × List Event :=
  let s1 : LCDState :=
    { backlightval := LCD_BACKLIGHT
      displaycontrol := LCD_DISPLAYON ||| LCD_CURSOROFF ||| LCD_BLINKOFF
      displaymode := LCD_ENTRYLEFT ||| LCD_ENTRYSHIFTDECREMENT }
  let bl := s1.backlightval
  let t1 := write4bitsTrace bl (0x03 <<< 4) ++ [.sleep 5] ++
            write4bitsTrace bl (0x03 <<< 4) ++ [.sleep 5] ++
            write4bitsTrace bl (0x03 <<< 4) ++ [.sleep 5] ++
            write4bitsTrace bl (0x02 <<< 4) ++
            commandTrace bl
              (LCD_CMD_FUNCTIONSET ||| LCD_4BITMODE ||| LCD_2LINE ||| LCD_5x8DOTS) ++
            commandTrace bl (LCD_CMD_DISPLAYCONTROL ||| s1.displaycontrol) ++
            commandTrace bl (LCD_CMD_ENTRYMODESET ||| s1.displaymode)
  let (s2, t2) := clear s1
  let (s3, t3) := home s2
  (s3, t1 ++ t2 ++ t3)

/-! ### The operations as a single family -/

/-- One constructor per public operation of the driver, with its arguments. -/
inductive Op where
  | clear
  | home
  | setBacklight (val : Nat)
  | loadCustomCharacter (char_arr : List Nat) (location : Nat)
  | setAutoscroll (state : Nat)
  | setTextDirection (direction : Nat)
  | scrollLeft
  | scrollRight
  | blinkOn (state : Nat)
  | displayOn (state : Nat)
  | cursorOn (state : Nat)
  | setCursorPosition (col row : Nat)
  | writeString (string : List Nat)
  | init
deriving DecidableEq, Repr

/-- Run one public operation on the driver state. -/
def runOp : Op → LCDState → LCDState × List Event
  | .clear, s => clear s
  | .home, s => home s
  | .setBacklight v, s => setBacklight s v
  | .loadCustomCharacter arr loc, s => loadCustomCharacter s arr loc
  | .setAutoscroll st, s => setAutoscroll s st
  | .setTextDirection d, s => setTextDirection s d
  | .scrollLeft, s => scrollLeft s
  | .scrollRight, s => scrollRight s
  | .blinkOn st, s => blinkOn s st
  | .displayOn st, s => displayOn s st
  | .cursorOn st, s => cursorOn s st
  | .setCursorPosition c r, s => setCursorPosition s c r
  | .writeString cs, s => writeString s cs
  | .init, s => init s

/-- All bytes an operation's trace places on the I2C bus (the contents of
every buffer handed to the transport, in order). -/
def busBytes (t : List Event) : List Nat :=
  (t.filterMap fun e => match e with
    | .i2cWrite buf => some buf
    | .sleep _ => none).flatten

/-- The expander data byte of each transport write: the byte that went
through `_expanderWrite` (the second byte of each buffer, after the constant
leading `0x00` from `bytearray(1)`). -/
def expanderBytes (t : List Event) : List Nat :=
  t.filterMap fun e => match e with
    | .i2cWrite buf => buf.get? 1
    | .sleep _ => none

/-- The state the driver is in right after `init` (backlight on, display on,
cursor off, blink off, entry left, shift decrement). -/
def initState : LCDState := (init ⟨0, 0, 0⟩).1

/-- Is this event a transport write? -/
def isWrite : Event → Bool
  | .i2cWrite _ => true
  | .sleep _ => false

/-- Number of transport writes in a trace. -/
def writesOf (t : List Event) : Nat := t.countP isWrite

/-! ### Execution against a faulty transport (for the error-handling claim)

The code contains no `try`/`except`: every operation is a plain sequence of
calls.  We re-run the same call structure in a semantics where the underlying
`self.write` raises on its `(k+1)`-st invocation with an arbitrary error
value `e`.  `M α` takes the error value and the number of transport writes
that still succeed, and returns the outcome, the remaining budget, and the
trace of events that actually happened before the outcome. -/

def M (α : Type) : Type :=
  Nat → Nat → Except Nat α × Nat × List Event

/-- Return without touching the bus. -/
def M.pur {α : Type} (a : α) : M α := fun _ k => (.ok a, k, [])

/-- Sequencing: a raised exception skips everything that follows
(the driver installs no handler anywhere). -/
def M.bind {α β : Type} (ma : M α) (f : α → M β) : M β := fun e k =>
  match ma e k with
  | (.error x, k', t) => (.error x, k', t)
  | (.ok a, k', t) =>
    match f a e k' with
    | (r, k'', t') => (r, k'', t ++ t')

/-- `sleep(ms)` never raises. -/
def sleepF (ms : Nat) : M Unit := fun _ k => (.ok (), k, [.sleep ms])

/-- `_write(data)` against the faulty transport: with no budget left the
transport raises `e` (so the trailing `sleep(2)` does not run); otherwise it
behaves as in the pure model. -/
def writeF (data : Nat) : M Unit := fun e k =>
  match k with
  | 0 => (.error e, 0, [])
  | k + 1 => (.ok (), k, [.i2cWrite (writeBuffer data), .sleep 2])

/-- `_expanderWrite(data)` in the faulty semantics. -/
def expanderWriteF (bl data : Nat) : M Unit := writeF (data ||| bl)

/-- `_pulseEnable(data)` in the faulty semantics. -/
def pulseEnableF (bl data : Nat) : M Unit :=
  M.bind (expanderWriteF bl (data ||| LCD_MODE_ENABLE)) fun _ =>
  M.bind (sleepF 1) fun _ =>
  M.bind (expanderWriteF bl (Nat.ldiff data LCD_MODE_ENABLE)) fun _ =>
  sleepF 1

/-- `_write4bits(data)` in the faulty semantics. -/
def write4bitsF (bl data : Nat) : M Unit :=
  M.bind (expanderWriteF bl data) fun _ => pulseEnableF bl data

/-- `_send(data, mode)` in the faulty semantics. -/
def sendF (bl data mode : Nat) : M Unit :=
  M.bind (write4bitsF bl (highBits data ||| mode)) fun _ =>
    write4bitsF bl (lowBits data ||| mode)

/-- `_command(cmd)` in the faulty semantics. -/
def commandF (bl cmd : Nat) : M Unit := sendF bl cmd 0

/-- `_writeChar(char)` in the faulty semantics. -/
def writeCharF (bl c : Nat) : M Unit := sendF bl c LCD_MODE_RS

/-- The `for char in ...: self._writeChar(char)` loops. -/
def writeCharsF (bl : Nat) : List Nat → M Unit
  | [] => M.pur ()
  | c :: cs => M.bind (writeCharF bl c) fun _ => writeCharsF bl cs

/-- `clear()` in the faulty semantics. -/
def clearF (s : LCDState) : M LCDState :=
  M.bind (commandF s.backlightval LCD_CMD_CLEARDISPLAY) fun _ =>
  M.bind (sleepF 2) fun _ => M.pur s

/-- `home()` in the faulty semantics. -/
def homeF (s : LCDState) : M LCDState :=
  M.bind (commandF s.backlightval LCD_CMD_RETURNHOME) fun _ =>
  M.bind (sleepF 2) fun _ => M.pur s

/-- `init()` in the faulty semantics. -/
def initF (_s : LCDState) : M LCDState :=
  let s1 : LCDState :=
    { backlightval := LCD_BACKLIGHT
      displaycontrol := LCD_DISPLAYON ||| LCD_CURSOROFF ||| LCD_BLINKOFF
      displaymode := LCD_ENTRYLEFT ||| LCD_ENTRYSHIFTDECREMENT }
  let bl := s1.backlightval
  M.bind (write4bitsF bl (0x03 <<< 4)) fun _ =>
  M.bind (sleepF 5) fun _ =>
  M.bind (write4bitsF bl (0x03 <<< 4)) fun _ =>
  M.bind (sleepF 5) fun _ =>
  M.bind (write4bitsF bl (0x03 <<< 4)) fun _ =>
  M.bind (sleepF 5) fun _ =>
  M.bind (write4bitsF bl (0x02 <<< 4)) fun _ =>
  M.bind (commandF bl
    (LCD_CMD_FUNCTIONSET ||| LCD_4BITMODE ||| LCD_2LINE ||| LCD_5x8DOTS)) fun _ =>
  M.bind (commandF bl (LCD_CMD_DISPLAYCONTROL ||| s1.displaycontrol)) fun _ =>
  M.bind (commandF bl (LCD_CMD_ENTRYMODESET ||| s1.displaymode)) fun _ =>
  M.bind (clearF s1) fun s2 => homeF s2

/-- Run one public operation against the faulty transport, mirroring the
call structure of the source. -/
def runOpF : Op → LCDState → M LCDState
  | .clear, s => clearF s
  | .home, s => homeF s
  | .setBacklight v, s =>
    let bl := if v = 0 then LCD_NOBACKLIGHT else LCD_BACKLIGHT
    M.bind (expanderWriteF bl 0) fun _ => M.pur { s with backlightval := bl }
  | .loadCustomCharacter arr loc, s =>
    M.bind (commandF s.backlightval (LCD_CMD_SETCGRAMADDR ||| (loc <<< 3))) fun _ =>
    M.bind (writeCharsF s.backlightval arr) fun _ => M.pur s
  | .setAutoscroll st, s =>
    let dm := if st ≠ 0 then s.displaymode ||| LCD_ENTRYSHIFTINCREMENT
              else Nat.ldiff s.displaymode LCD_ENTRYSHIFTINCREMENT
    M.bind (commandF s.backlightval (LCD_CMD_DISPLAYCONTROL ||| dm)) fun _ =>
      M.pur { s with displaymode := dm }
  | .setTextDirection d, s =>
    let dm := if d ≠ 0 then s.displaymode ||| LCD_ENTRYLEFT
              else Nat.ldiff s.displaymode LCD_ENTRYLEFT
    M.bind (commandF s.backlightval (LCD_CMD_DISPLAYCONTROL ||| dm)) fun _ =>
      M.pur { s with displaymode := dm }
  | .scrollLeft, s =>
    M.bind (commandF s.backlightval
      (LCD_CMD_CURSORSHIFT ||| LCD_DISPLAYMOVE ||| LCD_MOVELEFT)) fun _ => M.pur s
  | .scrollRight, s =>
    M.bind (commandF s.backlightval
      (LCD_CMD_CURSORSHIFT ||| LCD_DISPLAYMOVE ||| LCD_MOVERIGHT)) fun _ => M.pur s
  | .blinkOn st, s =>
    let dc := if st ≠ 0 then s.displaycontrol ||| LCD_BLINKON
              else Nat.ldiff s.displaycontrol LCD_BLINKON
    M.bind (commandF s.backlightval (LCD_CMD_DISPLAYCONTROL ||| dc)) fun _ =>
      M.pur { s with displaycontrol := dc }
  | .displayOn st, s =>
    let dc := if st ≠ 0 then s.displaycontrol ||| LCD_DISPLAYON
              else Nat.ldiff s.displaycontrol LCD_DISPLAYON
    M.bind (commandF s.backlightval (LCD_CMD_DISPLAYCONTROL ||| dc)) fun _ =>
      M.pur { s with displaycontrol := dc }
  | .cursorOn st, s =>
    let dc := if st ≠ 0 then s.displaycontrol ||| LCD_CURSORON
              else Nat.ldiff s.displaycontrol LCD_CURSORON
    M.bind (commandF s.backlightval (LCD_CMD_DISPLAYCONTROL ||| dc)) fun _ =>
      M.pur { s with displaycontrol := dc }
  | .setCursorPosition c r, s =>
    M.bind (commandF s.backlightval
      (LCD_CMD_SETDDRAMADDR ||| (c + r * 0x40))) fun _ => M.pur s
  | .writeString cs, s =>
    M.bind (writeCharsF s.backlightval cs) fun _ => M.pur s
  | .init, s => initF s

/-- A faulty-semantics computation `m` is faithful to final value `v` and
pure trace `t` when: with enough budget it succeeds with exactly that value
and trace, and with budget `k` below the number of writes in `t` it
propagates the transport's error `e` unchanged, having emitted exactly a
prefix of `t` containing `k` writes (no retries, no recovery writes). -/
def Faithful {α : Type} (m : M α) (v : α) (t : List Event) : Prop :=
  ∀ e k,
    (writesOf t ≤ k → m e k = (Except.ok v, k - writesOf t, t)) ∧
    (k < writesOf t →
      ∃ n k', m e k = (Except.error e, k', t.take n) ∧ writesOf (t.take n) = k)

/-! ### Helper lemmas -/

theorem writesOf_append (a b : List Event) :
    writesOf (a ++ b) = writesOf a + writesOf b :=
  List.countP_append _ _ _

theorem take_of_append (ta tb : List Event) (n : Nat) :
    ∃ m, (ta ++ tb).take m = ta.take n := by
  refine ⟨min n ta.length, ?_⟩
  rw [List.take_append_of_le_length (Nat.min_le_right n ta.length)]
  rcases Nat.le_total n ta.length with h | h
  · rw [Nat.min_eq_left h]
  · rw [Nat.min_eq_right h, List.take_length, List.take_of_length_le h]

theorem Faithful.bind {α β : Type} (f : α → M β) {ma : M α} {va : α}
    {ta : List Event} {vb : β} {tb : List Event}
    (ha : Faithful ma va ta) (hb : Faithful (f va) vb tb) :
    Faithful (M.bind ma f) vb (ta ++ tb) := by
  intro e k
  constructor
  · intro hk
    rw [writesOf_append] at hk
    have h1 := (ha e k).1 (by omega)
    have h2 := (hb e (k - writesOf ta)).1 (by omega)
    simp only [M.bind, h1, h2]
    rw [writesOf_append]
    congr 2
    omega
  · intro hk
    rw [writesOf_append] at hk
    by_cases hka : k < writesOf ta
    · obtain ⟨n, k', hm, hw⟩ := (ha e k).2 hka
      obtain ⟨m, hmc⟩ := take_of_append ta tb n
      exact ⟨m, k', by simp only [M.bind, hm, hmc], by rw [hmc, hw]⟩
    · have h1 := (ha e k).1 (by omega)
      obtain ⟨n, k', hm, hw⟩ := (hb e (k - writesOf ta)).2 (by omega)
      refine ⟨ta.length + n, k', ?_, ?_⟩
      · simp only [M.bind, h1, hm, List.take_append]
      · rw [List.take_append, writesOf_append, hw]
        omega

theorem Faithful.bindC {α β : Type} {ma : M α} {va : α} {ta : List Event}
    {mb : M β} {vb : β} {tb : List Event}
    (ha : Faithful ma va ta) (hb : Faithful mb vb tb) :
    Faithful (M.bind ma fun _ => mb) vb (ta ++ tb) :=
  Faithful.bind _ ha hb

theorem faithful_pur {α : Type} (a : α) : Faithful (M.pur a) a [] := by
  intro e k
  refine ⟨fun _ => ?_, fun hk => absurd hk (by simp [writesOf])⟩
  simp [M.pur, writesOf]

theorem faithful_sleepF (ms : Nat) :
    Faithful (sleepF ms) () [Event.sleep ms] := by
  intro e k
  have h0 : writesOf [Event.sleep ms] = 0 := rfl
  refine ⟨fun _ => ?_, fun hk => absurd hk (by rw [h0]; omega)⟩
  rw [h0]
  simp [sleepF]

theorem faithful_writeF (d : Nat) :
    Faithful (writeF d) () (writeTrace d) := by
  intro e k
  have h1 : writesOf (writeTrace d) = 1 := rfl
  constructor
  · intro hk
    rw [h1] at hk ⊢
    cases k with
    | zero => omega
    | succ k => simp [writeF, writeTrace]
  · intro hk
    rw [h1] at hk
    have : k = 0 := by omega
    subst this
    exact ⟨0, 0, rfl, rfl⟩

theorem faithful_expanderWriteF (bl d : Nat) :
    Faithful (expanderWriteF bl d) () (expanderWriteTrace bl d) :=
  faithful_writeF _

theorem faithful_pulseEnableF (bl d : Nat) :
    Faithful (pulseEnableF bl d) () (pulseEnableTrace bl d) := by
  have h := (faithful_expanderWriteF bl (d ||| LCD_MODE_ENABLE)).bindC
    ((faithful_sleepF 1).bindC
      ((faithful_expanderWriteF bl (Nat.ldiff d LCD_MODE_ENABLE)).bindC
        (faithful_sleepF 1)))
  simpa [pulseEnableTrace] using h

theorem faithful_write4bitsF (bl d : Nat) :
    Faithful (write4bitsF bl d) () (write4bitsTrace bl d) := by
  have h := (faithful_expanderWriteF bl d).bindC (faithful_pulseEnableF bl d)
  simpa [write4bitsTrace] using h

theorem faithful_sendF (bl data mode : Nat) :
    Faithful (sendF bl data mode) () (sendTrace bl data mode) := by
  have h := (faithful_write4bitsF bl (highBits data ||| mode)).bindC
    (faithful_write4bitsF bl (lowBits data ||| mode))
  simpa [sendTrace] using h

theorem faithful_commandF (bl cmd : Nat) :
    Faithful (commandF bl cmd) () (commandTrace bl cmd) :=
  faithful_sendF bl cmd 0

theorem faithful_writeCharF (bl c : Nat) :
    Faithful (writeCharF bl c) () (writeCharTrace bl c) :=
  faithful_sendF bl c LCD_MODE_RS

theorem faithful_writeCharsF (bl : Nat) (cs : List Nat) :
    Faithful (writeCharsF bl cs) () ((cs.map (writeCharTrace bl)).flatten) := by
  induction cs with
  | nil => exact faithful_pur ()
  | cons c cs ih =>
    have h := (faithful_writeCharF bl c).bindC ih
    simpa [writeCharsF] using h

theorem faithful_clearF (s : LCDState) :
    Faithful (clearF s) s (clear s).2 := by
  have h := (faithful_commandF s.backlightval LCD_CMD_CLEARDISPLAY).bindC
    ((faithful_sleepF 2).bindC (faithful_pur s))
  simpa [clear] using h

theorem faithful_homeF (s : LCDState) :
    Faithful (homeF s) s (home s).2 := by
  have h := (faithful_commandF s.backlightval LCD_CMD_RETURNHOME).bindC
    ((faithful_sleepF 2).bindC (faithful_pur s))
  simpa [home] using h

theorem faithful_runOpF (op : Op) (s : LCDState) :
    Faithful (runOpF op s) (runOp op s).1 (runOp op s).2 := by
  cases op with
  | clear => exact faithful_clearF s
  | home => exact faithful_homeF s
  | setBacklight v =>
    have h := (faithful_expanderWriteF
        (if v = 0 then LCD_NOBACKLIGHT else LCD_BACKLIGHT) 0).bindC
      (faithful_pur { s with backlightval :=
        (if v = 0 then LCD_NOBACKLIGHT else LCD_BACKLIGHT) })
    simpa [runOp, runOpF, setBacklight] using h
  | loadCustomCharacter arr loc =>
    have h := (faithful_commandF s.backlightval
        (LCD_CMD_SETCGRAMADDR ||| (loc <<< 3))).bindC
      ((faithful_writeCharsF s.backlightval arr).bindC (faithful_pur s))
    simpa [runOp, runOpF, loadCustomCharacter] using h
  | setAutoscroll st =>
    have h := (faithful_commandF s.backlightval
        (LCD_CMD_DISPLAYCONTROL |||
          (if st ≠ 0 then s.displaymode ||| LCD_ENTRYSHIFTINCREMENT
           else Nat.ldiff s.displaymode LCD_ENTRYSHIFTINCREMENT))).bindC
      (faithful_pur { s with displaymode :=
        (if st ≠ 0 then s.displaymode ||| LCD_ENTRYSHIFTINCREMENT
         else Nat.ldiff s.displaymode LCD_ENTRYSHIFTINCREMENT) })
    simpa [runOp, runOpF, setAutoscroll] using h
  | setTextDirection d =>
    have h := (faithful_commandF s.backlightval
        (LCD_CMD_DISPLAYCONTROL |||
          (if d ≠ 0 then s.displaymode ||| LCD_ENTRYLEFT
           else Nat.ldiff s.displaymode LCD_ENTRYLEFT))).bindC
      (faithful_pur { s with displaymode :=
        (if d ≠ 0 then s.displaymode ||| LCD_ENTRYLEFT
         else Nat.ldiff s.displaymode LCD_ENTRYLEFT) })
    simpa [runOp, runOpF, setTextDirection] using h
  | scrollLeft =>
    have h := (faithful_commandF s.backlightval
        (LCD_CMD_CURSORSHIFT ||| LCD_DISPLAYMOVE ||| LCD_MOVELEFT)).bindC
      (faithful_pur s)
    simpa [runOp, runOpF, scrollLeft] using h
  | scrollRight =>
    have h := (faithful_commandF s.backlightval
        (LCD_CMD_CURSORSHIFT ||| LCD_DISPLAYMOVE ||| LCD_MOVERIGHT)).bindC
      (faithful_pur s)
    simpa [runOp, runOpF, scrollRight] using h
  | blinkOn st =>
    have h := (faithful_commandF s.backlightval
        (LCD_CMD_DISPLAYCONTROL |||
          (if st ≠ 0 then s.displaycontrol ||| LCD_BLINKON
           else Nat.ldiff s.displaycontrol LCD_BLINKON))).bindC
      (faithful_pur { s with displaycontrol :=
        (if st ≠ 0 then s.displaycontrol ||| LCD_BLINKON
         else Nat.ldiff s.displaycontrol LCD_BLINKON) })
    simpa [runOp, runOpF, blinkOn] using h
  | displayOn st =>
    have h := (faithful_commandF s.backlightval
        (LCD_CMD_DISPLAYCONTROL |||
          (if st ≠ 0 then s.displaycontrol ||| LCD_DISPLAYON
           else Nat.ldiff s.displaycontrol LCD_DISPLAYON))).bindC
      (faithful_pur { s with displaycontrol :=
        (if st ≠ 0 then s.displaycontrol ||| LCD_DISPLAYON
         else Nat.ldiff s.displaycontrol LCD_DISPLAYON) })
    simpa [runOp, runOpF, displayOn] using h
  | cursorOn st =>
    have h := (faithful_commandF s.backlightval
        (LCD_CMD_DISPLAYCONTROL |||
          (if st ≠ 0 then s.displaycontrol ||| LCD_CURSORON
           else Nat.ldiff s.displaycontrol LCD_CURSORON))).bindC
      (faithful_pur { s with displaycontrol :=
        (if st ≠ 0 then s.displaycontrol ||| LCD_CURSORON
         else Nat.ldiff s.displaycontrol LCD_CURSORON) })
    simpa [runOp, runOpF, cursorOn] using h
  | setCursorPosition c r =>
    have h := (faithful_commandF s.backlightval
        (LCD_CMD_SETDDRAMADDR ||| (c + r * 0x40))).bindC (faithful_pur s)
    simpa [runOp, runOpF, setCursorPosition] using h
  | writeString cs =>
    have h := (faithful_writeCharsF s.backlightval cs).bindC (faithful_pur s)
    simpa [runOp, runOpF, writeString] using h
  | init =>
    have h :=
      (faithful_write4bitsF LCD_BACKLIGHT (0x03 <<< 4)).bindC
      ((faithful_sleepF 5).bindC
      ((faithful_write4bitsF LCD_BACKLIGHT (0x03 <<< 4)).bindC
      ((faithful_sleepF 5).bindC
      ((faithful_write4bitsF LCD_BACKLIGHT (0x03 <<< 4)).bindC
      ((faithful_sleepF 5).bindC
      ((faithful_write4bitsF LCD_BACKLIGHT (0x02 <<< 4)).bindC
      ((faithful_commandF LCD_BACKLIGHT
          (LCD_CMD_FUNCTIONSET ||| LCD_4BITMODE ||| LCD_2LINE ||| LCD_5x8DOTS)).bindC
      ((faithful_commandF LCD_BACKLIGHT
          (LCD_CMD_DISPLAYCONTROL |||
            (LCD_DISPLAYON ||| LCD_CURSOROFF ||| LCD_BLINKOFF))).bindC
      ((faithful_commandF LCD_BACKLIGHT
          (LCD_CMD_ENTRYMODESET ||| (LCD_ENTRYLEFT ||| LCD_ENTRYSHIFTDECREMENT))).bindC
      (Faithful.bind (fun s2 => homeF s2)
        (faithful_clearF
          { backlightval := LCD_BACKLIGHT
            displaycontrol := LCD_DISPLAYON ||| LCD_CURSOROFF ||| LCD_BLINKOFF
            displaymode := LCD_ENTRYLEFT ||| LCD_ENTRYSHIFTDECREMENT })
        (faithful_homeF
          { backlightval := LCD_BACKLIGHT
            displaycontrol := LCD_DISPLAYON ||| LCD_CURSOROFF ||| LCD_BLINKOFF
            displaymode := LCD_ENTRYLEFT ||| LCD_ENTRYSHIFTDECREMENT })))))))))))
    simpa [runOp, runOpF, initF, init, clear, home] using h

/-! ### Byte-level helper lemmas -/

theorem expanderBytes_append (a b : List Event) :
    expanderBytes (a ++ b) = expanderBytes a ++ expanderBytes b :=
  List.filterMap_append a b _

theorem expanderBytes_sleep (ms : Nat) :
    expanderBytes [Event.sleep ms] = [] := rfl

theorem expanderBytes_write4bits (bl d : Nat) :
    expanderBytes (write4bitsTrace bl d) =
      [d ||| bl, (d ||| LCD_MODE_ENABLE) ||| bl,
       Nat.ldiff d LCD_MODE_ENABLE ||| bl] := rfl

theorem expanderBytes_send (bl data mode : Nat) :
    expanderBytes (sendTrace bl data mode) =
      expanderBytes (write4bitsTrace bl (highBits data ||| mode)) ++
        expanderBytes (write4bitsTrace bl (lowBits data ||| mode)) :=
  expanderBytes_append _ _

/-- The mode argument never carries bit 3, and masking with `0xF0` clears it,
so no 4-bit payload handed to `_write4bits` by `_send` can carry bit 3. -/
theorem testBit3_payload (a m : Nat) (hm : m = 0 ∨ m = 1) :
    Nat.testBit ((a &&& 0xF0) ||| m) 3 = false := by
  rcases hm with rfl | rfl <;>
    simp [Nat.testBit_lor, Nat.testBit_land] <;>
    first
      | exact ⟨fun _ => rfl, rfl⟩
      | exact fun _ => rfl
      | rfl

theorem testBit3_lor (p bl : Nat) (hp : Nat.testBit p 3 = false) :
    Nat.testBit (p ||| bl) 3 = Nat.testBit bl 3 := by
  simp [Nat.testBit_lor, hp]

theorem testBit3_or_enable (p : Nat) (hp : Nat.testBit p 3 = false) :
    Nat.testBit (p ||| LCD_MODE_ENABLE) 3 = false := by
  simp [LCD_MODE_ENABLE, Nat.testBit_lor, hp]
  first
    | rfl
    | exact fun _ => rfl

theorem testBit3_ldiff_enable (p : Nat) (hp : Nat.testBit p 3 = false) :
    Nat.testBit (Nat.ldiff p LCD_MODE_ENABLE) 3 = false := by
  simp [LCD_MODE_ENABLE, Nat.testBit_ldiff, hp]

theorem testBit3_backlight (bl : Nat)
    (h : bl = LCD_BACKLIGHT ∨ bl = LCD_NOBACKLIGHT) :
    Nat.testBit bl 3 = decide (bl = LCD_BACKLIGHT) := by
  rcases h with rfl | rfl <;> decide

/-- Every expander data byte of a `_write4bits(d)` transfer with a payload
free of bit 3 has bit 3 equal to the backlight bit. -/
theorem w4Byte_bit3 (bl d : Nat)
    (hbl : bl = LCD_BACKLIGHT ∨ bl = LCD_NOBACKLIGHT)
    (hd : Nat.testBit d 3 = false) :
    ∀ b ∈ expanderBytes (write4bitsTrace bl d),
      Nat.testBit b 3 = decide (bl = LCD_BACKLIGHT) := by
  intro b hb
  rw [expanderBytes_write4bits] at hb
  rw [← testBit3_backlight bl hbl]
  simp only [List.mem_cons, List.not_mem_nil, or_false] at hb
  rcases hb with rfl | rfl | rfl
  · exact testBit3_lor d bl hd
  · exact testBit3_lor _ bl (testBit3_or_enable d hd)
  · exact testBit3_lor _ bl (testBit3_ldiff_enable d hd)

/-- Every expander data byte of a `_send(data, mode)` transmission has bit 3
equal to the backlight bit. -/
theorem sendByte_bit3 (bl data mode : Nat)
    (hbl : bl = LCD_BACKLIGHT ∨ bl = LCD_NOBACKLIGHT)
    (hm : mode = 0 ∨ mode = LCD_MODE_RS) :
    ∀ b ∈ expanderBytes (sendTrace bl data mode),
      Nat.testBit b 3 = decide (bl = LCD_BACKLIGHT) := by
  have hm' : mode = 0 ∨ mode = 1 := hm
  intro b hb
  rw [expanderBytes_send] at hb
  rcases List.mem_append.mp hb with h | h
  · exact w4Byte_bit3 bl _ hbl (testBit3_payload data mode hm') b h
  · exact w4Byte_bit3 bl _ hbl (testBit3_payload (data <<< 4) mode hm') b h

theorem commandByte_bit3 (bl cmd : Nat)
    (hbl : bl = LCD_BACKLIGHT ∨ bl = LCD_NOBACKLIGHT) :
    ∀ b ∈ expanderBytes (commandTrace bl cmd),
      Nat.testBit b 3 = decide (bl = LCD_BACKLIGHT) :=
  sendByte_bit3 bl cmd 0 hbl (Or.inl rfl)

theorem charsByte_bit3 (bl : Nat) (cs : List Nat)
    (hbl : bl = LCD_BACKLIGHT ∨ bl = LCD_NOBACKLIGHT) :
    ∀ b ∈ expanderBytes ((cs.map (writeCharTrace bl)).flatten),
      Nat.testBit b 3 = decide (bl = LCD_BACKLIGHT) := by
  induction cs with
  | nil => intro b hb; cases hb
  | cons c cs ih =>
    intro b hb
    rw [List.map_cons, List.flatten_cons, expanderBytes_append] at hb
    rcases List.mem_append.mp hb with h | h
    · exact sendByte_bit3 bl c LCD_MODE_RS hbl (Or.inr rfl) b h
    · exact ih b h

theorem expanderBytes_expanderWrite (bl d : Nat) :
    expanderBytes (expanderWriteTrace bl d) = [d ||| bl] := rfl

/-! ### Claim theorems -/

/-- C1: `_send(data, mode)` serializes a byte as exactly two 4-bit transfers,
first `(data & 0xF0) | mode`, then `((data << 4) & 0xF0) | mode`; and the
public operations clear, home, writeString, cursor control (cursorOn,
blinkOn, displayOn, setCursorPosition, scrollLeft, scrollRight,
setAutoscroll, setTextDirection) and custom characters reach the bus only
through `_send` transmissions. -/
theorem C1_send_serialization :
    (∀ bl data mode, sendTrace bl data mode =
        write4bitsTrace bl ((data &&& 0xF0) ||| mode) ++
          write4bitsTrace bl (((data <<< 4) &&& 0xF0) ||| mode)) ∧
    (∀ s, (clear s).2 =
        sendTrace s.backlightval LCD_CMD_CLEARDISPLAY 0 ++ [Event.sleep 2]) ∧
    (∀ s, (home s).2 =
        sendTrace s.backlightval LCD_CMD_RETURNHOME 0 ++ [Event.sleep 2]) ∧
    (∀ s cs, (writeString s cs).2 =
        (cs.map fun c => sendTrace s.backlightval c LCD_MODE_RS).flatten) ∧
    (∀ s st, (cursorOn s st).2 =
        sendTrace s.backlightval
          (LCD_CMD_DISPLAYCONTROL ||| (cursorOn s st).1.displaycontrol) 0) ∧
    (∀ s st, (blinkOn s st).2 =
        sendTrace s.backlightval
          (LCD_CMD_DISPLAYCONTROL ||| (blinkOn s st).1.displaycontrol) 0) ∧
    (∀ s st, (displayOn s st).2 =
        sendTrace s.backlightval
          (LCD_CMD_DISPLAYCONTROL ||| (displayOn s st).1.displaycontrol) 0) ∧
    (∀ s st, (setAutoscroll s st).2 =
        sendTrace s.backlightval
          (LCD_CMD_DISPLAYCONTROL ||| (setAutoscroll s st).1.displaymode) 0) ∧
    (∀ s st, (setTextDirection s st).2 =
        sendTrace s.backlightval
          (LCD_CMD_DISPLAYCONTROL ||| (setTextDirection s st).1.displaymode) 0) ∧
    (∀ s c r, (setCursorPosition s c r).2 =
        sendTrace s.backlightval (LCD_CMD_SETDDRAMADDR ||| (c + r * 0x40)) 0) ∧
    (∀ s, (scrollLeft s).2 =
        sendTrace s.backlightval
          (LCD_CMD_CURSORSHIFT ||| LCD_DISPLAYMOVE ||| LCD_MOVELEFT) 0) ∧
    (∀ s, (scrollRight s).2 =
        sendTrace s.backlightval
          (LCD_CMD_CURSORSHIFT ||| LCD_DISPLAYMOVE ||| LCD_MOVERIGHT) 0) ∧
    (∀ s arr loc, (loadCustomCharacter s arr loc).2 =
        sendTrace s.backlightval (LCD_CMD_SETCGRAMADDR ||| (loc <<< 3)) 0 ++
          (arr.map fun c => sendTrace s.backlightval c LCD_MODE_RS).flatten) :=
  ⟨fun _ _ _ => rfl, fun _ => rfl, fun _ => rfl, fun _ _ => rfl,
   fun _ _ => rfl, fun _ _ => rfl, fun _ _ => rfl, fun _ _ => rfl,
   fun _ _ => rfl, fun _ _ _ => rfl, fun _ => rfl, fun _ => rfl,
   fun _ _ _ => rfl⟩

/-- C2: `_write4bits(d)` produces exactly three expander-register writes in
order `d`, `d | ENABLE`, `d & ~ENABLE`, each `ENABLE` transition followed by
a delay, and the last byte written has the `ENABLE` bit (0x04) clear. -/
theorem C2_write4bits_three_writes (bl d : Nat)
    (h : bl = LCD_BACKLIGHT ∨ bl = LCD_NOBACKLIGHT) :
    write4bitsTrace bl d =
      expanderWriteTrace bl d ++
        expanderWriteTrace bl (d ||| LCD_MODE_ENABLE) ++ [Event.sleep 1] ++
        expanderWriteTrace bl (Nat.ldiff d LCD_MODE_ENABLE) ++ [Event.sleep 1] ∧
    expanderBytes (write4bitsTrace bl d) =
      [d ||| bl, (d ||| LCD_MODE_ENABLE) ||| bl,
       Nat.ldiff d LCD_MODE_ENABLE ||| bl] ∧
    writesOf (write4bitsTrace bl d) = 3 ∧
    (expanderBytes (write4bitsTrace bl d)).getLast? =
      some (Nat.ldiff d LCD_MODE_ENABLE ||| bl) ∧
    Nat.testBit (Nat.ldiff d LCD_MODE_ENABLE ||| bl) 2 = false := by
  refine ⟨?_, rfl, rfl, rfl, ?_⟩
  · simp [write4bitsTrace, pulseEnableTrace, List.append_assoc]
  · rcases h with rfl | rfl <;>
      simp [LCD_MODE_ENABLE, LCD_BACKLIGHT, LCD_NOBACKLIGHT,
        Nat.testBit_lor, Nat.testBit_ldiff] <;>
      first
        | exact ⟨fun _ => rfl, rfl⟩
        | exact fun _ => rfl
        | rfl

theorem C2_write4bits_three_writes_witness :
    (LCD_BACKLIGHT = LCD_BACKLIGHT ∨ LCD_BACKLIGHT = LCD_NOBACKLIGHT) ∧
    Nat.testBit (Nat.ldiff 0x31 LCD_MODE_ENABLE ||| LCD_BACKLIGHT) 2 = false ∧
    writesOf (write4bitsTrace LCD_BACKLIGHT 0x31) = 3 :=
  ⟨Or.inl rfl,
   (C2_write4bits_three_writes LCD_BACKLIGHT 0x31 (Or.inl rfl)).2.2.2.2,
   (C2_write4bits_three_writes LCD_BACKLIGHT 0x31 (Or.inl rfl)).2.2.1⟩

/-- C3 (counterexample): the claim says `_write(d)` hands exactly one byte,
equal to `d`, to the transport.  In the code `buffer = bytearray(1)` starts
with one zero byte and `buffer.append(data)` makes it two bytes, so at
`d = 0x55` the transport receives the two-byte buffer `[0x00, 0x55]`,
not `[0x55]`. -/
theorem C3_counterexample :
    writeTrace 0x55 = [Event.i2cWrite [0x00, 0x55], Event.sleep 2] ∧
    writeBuffer 0x55 ≠ [0x55] ∧
    (writeBuffer 0x55).length = 2 := by
  refine ⟨rfl, ?_, rfl⟩
  decide

/-- C3 (amended): every `_write(d)` performs exactly one transport write per
call, but the buffer handed over is the two bytes `[0x00, d]` (a constant
leading zero byte from `bytearray(1)`, then `d`), followed by `sleep(2)`. -/
theorem C3_single_transport_write (d : Nat) :
    writeTrace d = [Event.i2cWrite (writeBuffer d), Event.sleep 2] ∧
    writeBuffer d = [0x00, d] ∧
    writesOf (writeTrace d) = 1 ∧
    busBytes (writeTrace d) = [0x00, d] :=
  ⟨rfl, rfl, rfl, rfl⟩

/-- C5: `init()` writes the nibble pattern `0x30` three times, each followed
by a 5 ms delay, then `0x20` once; only then the function-set (0x28),
display-control (0x0C) and entry-mode (0x06) commands, then clear and home,
in that order.  It also initializes the three flag bytes. -/
theorem C5_init_sequence (s : LCDState) :
    (init s).2 =
      write4bitsTrace LCD_BACKLIGHT 0x30 ++ [Event.sleep 5] ++
      write4bitsTrace LCD_BACKLIGHT 0x30 ++ [Event.sleep 5] ++
      write4bitsTrace LCD_BACKLIGHT 0x30 ++ [Event.sleep 5] ++
      write4bitsTrace LCD_BACKLIGHT 0x20 ++
      commandTrace LCD_BACKLIGHT 0x28 ++
      commandTrace LCD_BACKLIGHT 0x0C ++
      commandTrace LCD_BACKLIGHT 0x06 ++
      (commandTrace LCD_BACKLIGHT LCD_CMD_CLEARDISPLAY ++ [Event.sleep 2]) ++
      (commandTrace LCD_BACKLIGHT LCD_CMD_RETURNHOME ++ [Event.sleep 2]) ∧
    (init s).1 = { backlightval := LCD_BACKLIGHT
                   displaycontrol := 0x04
                   displaymode := 0x02 } := by
  constructor
  · rfl
  · rfl

/-- C4 (counterexample): the claim says every byte placed on the bus passes
through `_expanderWrite` and has bit 3 equal to the backlight flag.  But each
transport buffer starts with the constant `0x00` byte from `bytearray(1)`,
which does not pass through `_expanderWrite`: right after `init` the
backlight flag is `LCD_BACKLIGHT`, yet `clear()` places the byte `0x00`
(bit 3 clear) on the bus. -/
theorem C4_counterexample :
    initState.backlightval = LCD_BACKLIGHT ∧
    0x00 ∈ busBytes (runOp Op.clear initState).2 ∧
    Nat.testBit 0x00 3 = false := by
  refine ⟨rfl, ?_, rfl⟩
  decide

/-- C4 (amended): every expander data byte — the byte argument of each
`_write` call, i.e. the second byte of each transport buffer after the
constant `0x00` prefix — is ORed with the persisted backlight flag, and its
bit 3 (0x08) equals 1 iff the operation's backlight flag is `LCD_BACKLIGHT`;
no nibble payload or mode bit can set or clear that bit. -/
theorem C4_expander_backlight_bit (op : Op) (s : LCDState)
    (h : s.backlightval = LCD_BACKLIGHT ∨ s.backlightval = LCD_NOBACKLIGHT) :
    ∀ b ∈ expanderBytes (runOp op s).2,
      Nat.testBit b 3 = decide ((runOp op s).1.backlightval = LCD_BACKLIGHT) := by
  cases op with
  | clear =>
    intro b hb
    have hb' : b ∈ expanderBytes (commandTrace s.backlightval LCD_CMD_CLEARDISPLAY) := by
      simpa [runOp, clear, expanderBytes_append, expanderBytes_sleep] using hb
    exact commandByte_bit3 s.backlightval LCD_CMD_CLEARDISPLAY h b hb'
  | home =>
    intro b hb
    have hb' : b ∈ expanderBytes (commandTrace s.backlightval LCD_CMD_RETURNHOME) := by
      simpa [runOp, home, expanderBytes_append, expanderBytes_sleep] using hb
    exact commandByte_bit3 s.backlightval LCD_CMD_RETURNHOME h b hb'
  | setBacklight v =>
    intro b hb
    have hb' : b = 0 ||| (if v = 0 then LCD_NOBACKLIGHT else LCD_BACKLIGHT) := by
      simpa [runOp, setBacklight, expanderBytes_expanderWrite] using hb
    subst hb'
    by_cases hv : v = 0 <;>
      simp [runOp, setBacklight, hv, LCD_NOBACKLIGHT, LCD_BACKLIGHT] <;>
      decide
  | loadCustomCharacter arr loc =>
    intro b hb
    have hb' : b ∈ expanderBytes
        (commandTrace s.backlightval (LCD_CMD_SETCGRAMADDR ||| (loc <<< 3))) ++
        expanderBytes ((arr.map (writeCharTrace s.backlightval)).flatten) := by
      simpa [runOp, loadCustomCharacter, expanderBytes_append] using hb
    rcases List.mem_append.mp hb' with h1 | h1
    · exact commandByte_bit3 s.backlightval _ h b h1
    · exact charsByte_bit3 s.backlightval arr h b h1
  | setAutoscroll st =>
    intro b hb
    have hb' : b ∈ expanderBytes (commandTrace s.backlightval
        (LCD_CMD_DISPLAYCONTROL |||
          (if st ≠ 0 then s.displaymode ||| LCD_ENTRYSHIFTINCREMENT
           else Nat.ldiff s.displaymode LCD_ENTRYSHIFTINCREMENT))) := by
      simpa [runOp, setAutoscroll] using hb
    exact commandByte_bit3 s.backlightval _ h b hb'
  | setTextDirection d =>
    intro b hb
    have hb' : b ∈ expanderBytes (commandTrace s.backlightval
        (LCD_CMD_DISPLAYCONTROL |||
          (if d ≠ 0 then s.displaymode ||| LCD_ENTRYLEFT
           else Nat.ldiff s.displaymode LCD_ENTRYLEFT))) := by
      simpa [runOp, setTextDirection] using hb
    exact commandByte_bit3 s.backlightval _ h b hb'
  | scrollLeft =>
    intro b hb
    have hb' : b ∈ expanderBytes (commandTrace s.backlightval
        (LCD_CMD_CURSORSHIFT ||| LCD_DISPLAYMOVE ||| LCD_MOVELEFT)) := by
      simpa [runOp, scrollLeft] using hb
    exact commandByte_bit3 s.backlightval _ h b hb'
  | scrollRight =>
    intro b hb
    have hb' : b ∈ expanderBytes (commandTrace s.backlightval
        (LCD_CMD_CURSORSHIFT ||| LCD_DISPLAYMOVE ||| LCD_MOVERIGHT)) := by
      simpa [runOp, scrollRight] using hb
    exact commandByte_bit3 s.backlightval _ h b hb'
  | blinkOn st =>
    intro b hb
    have hb' : b ∈ expanderBytes (commandTrace s.backlightval
        (LCD_CMD_DISPLAYCONTROL |||
          (if st ≠ 0 then s.displaycontrol ||| LCD_BLINKON
           else Nat.ldiff s.displaycontrol LCD_BLINKON))) := by
      simpa [runOp, blinkOn] using hb
    exact commandByte_bit3 s.backlightval _ h b hb'
  | displayOn st =>
    intro b hb
    have hb' : b ∈ expanderBytes (commandTrace s.backlightval
        (LCD_CMD_DISPLAYCONTROL |||
          (if st ≠ 0 then s.displaycontrol ||| LCD_DISPLAYON
           else Nat.ldiff s.displaycontrol LCD_DISPLAYON))) := by
      simpa [runOp, displayOn] using hb
    exact commandByte_bit3 s.backlightval _ h b hb'
  | cursorOn st =>
    intro b hb
    have hb' : b ∈ expanderBytes (commandTrace s.backlightval
        (LCD_CMD_DISPLAYCONTROL |||
          (if st ≠ 0 then s.displaycontrol ||| LCD_CURSORON
           else Nat.ldiff s.displaycontrol LCD_CURSORON))) := by
      simpa [runOp, cursorOn] using hb
    exact commandByte_bit3 s.backlightval _ h b hb'
  | setCursorPosition c r =>
    intro b hb
    have hb' : b ∈ expanderBytes (commandTrace s.backlightval
        (LCD_CMD_SETDDRAMADDR ||| (c + r * 0x40))) := by
      simpa [runOp, setCursorPosition] using hb
    exact commandByte_bit3 s.backlightval _ h b hb'
  | writeString cs =>
    intro b hb
    have hb' : b ∈ expanderBytes ((cs.map (writeCharTrace s.backlightval)).flatten) := by
      simpa [runOp, writeString] using hb
    exact charsByte_bit3 s.backlightval cs h b hb'
  | init =>
    intro b hb
    simp only [runOp, init, clear, home, expanderBytes_append, expanderBytes_sleep,
      List.append_nil, List.nil_append, List.append_assoc, List.mem_append] at hb
    have hbl : LCD_BACKLIGHT = LCD_BACKLIGHT ∨ LCD_BACKLIGHT = LCD_NOBACKLIGHT :=
      Or.inl rfl
    rcases hb with h1 | h1 | h1 | h1 | h1 | h1 | h1 | h1 | h1
    · exact w4Byte_bit3 LCD_BACKLIGHT (0x03 <<< 4) hbl rfl b h1
    · exact w4Byte_bit3 LCD_BACKLIGHT (0x03 <<< 4) hbl rfl b h1
    · exact w4Byte_bit3 LCD_BACKLIGHT (0x03 <<< 4) hbl rfl b h1
    · exact w4Byte_bit3 LCD_BACKLIGHT (0x02 <<< 4) hbl rfl b h1
    · exact commandByte_bit3 LCD_BACKLIGHT _ hbl b h1
    · exact commandByte_bit3 LCD_BACKLIGHT _ hbl b h1
    · exact commandByte_bit3 LCD_BACKLIGHT _ hbl b h1
    · exact commandByte_bit3 LCD_BACKLIGHT _ hbl b h1
    · exact commandByte_bit3 LCD_BACKLIGHT _ hbl b h1

theorem C4_expander_backlight_bit_witness :
    (initState.backlightval = LCD_BACKLIGHT ∨
      initState.backlightval = LCD_NOBACKLIGHT) ∧
    0x08 ∈ expanderBytes (runOp Op.clear initState).2 ∧
    Nat.testBit 0x08 3 =
      decide ((runOp Op.clear initState).1.backlightval = LCD_BACKLIGHT) :=
  ⟨Or.inl rfl, by decide,
   C4_expander_backlight_bit Op.clear initState (Or.inl rfl) 0x08 (by decide)⟩

/-- C6: no operation catches or transforms bus errors.  If the transport
raises on its `(k+1)`-st write (with any error value `e`), the exception
propagates unchanged out of every public operation, and the events performed
are exactly a prefix of the operation's normal trace containing the `k`
successful writes — no retry or recovery write is attempted.  With enough
budget the faulty run agrees exactly with the pure model. -/
theorem C6_error_propagation (op : Op) (s : LCDState) (e k : Nat) :
    (writesOf (runOp op s).2 ≤ k →
      runOpF op s e k =
        (Except.ok (runOp op s).1, k - writesOf (runOp op s).2, (runOp op s).2)) ∧
    (k < writesOf (runOp op s).2 →
      ∃ n k', runOpF op s e k = (Except.error e, k', ((runOp op s).2).take n) ∧
        writesOf (((runOp op s).2).take n) = k) :=
  faithful_runOpF op s e k

theorem C6_error_propagation_witness :
    2 < writesOf (runOp Op.clear initState).2 ∧
    (∃ n k', runOpF Op.clear initState 7 2 =
        (Except.error 7, k', ((runOp Op.clear initState).2).take n) ∧
      writesOf (((runOp Op.clear initState).2).take n) = 2) :=
  ⟨by decide, (C6_error_propagation Op.clear initState 7 2).2 (by decide)⟩

/-- C7: flag-byte frame conditions.  Pure display traffic (clear, home,
scrollLeft, scrollRight, writeString, loadCustomCharacter,
setCursorPosition) leaves the whole flag state unchanged; each flag-setting
operation modifies only its own flag byte. -/
theorem C7_frame_flags (s : LCDState) (arr : List Nat) (loc : Nat)
    (cs : List Nat) (c r v st : Nat) :
    (clear s).1 = s ∧ (home s).1 = s ∧ (scrollLeft s).1 = s ∧
    (scrollRight s).1 = s ∧ (writeString s cs).1 = s ∧
    (loadCustomCharacter s arr loc).1 = s ∧ (setCursorPosition s c r).1 = s ∧
    (setBacklight s v).1.displaycontrol = s.displaycontrol ∧
    (setBacklight s v).1.displaymode = s.displaymode ∧
    (blinkOn s st).1.backlightval = s.backlightval ∧
    (blinkOn s st).1.displaymode = s.displaymode ∧
    (displayOn s st).1.backlightval = s.backlightval ∧
    (displayOn s st).1.displaymode = s.displaymode ∧
    (cursorOn s st).1.backlightval = s.backlightval ∧
    (cursorOn s st).1.displaymode = s.displaymode ∧
    (setAutoscroll s st).1.backlightval = s.backlightval ∧
    (setAutoscroll s st).1.displaycontrol = s.displaycontrol ∧
    (setTextDirection s st).1.backlightval = s.backlightval ∧
    (setTextDirection s st).1.displaycontrol = s.displaycontrol :=
  ⟨rfl, rfl, rfl, rfl, rfl, rfl, rfl, rfl, rfl, rfl, rfl, rfl, rfl, rfl,
   rfl, rfl, rfl, rfl, rfl⟩

theorem mask_payload (a m : Nat) (hm : m = 0 ∨ m = 1) :
    ((a &&& 0xF0) ||| m) &&& 0xF0 = a &&& 0xF0 := by
  rw [Nat.and_distrib_right]
  rcases hm with rfl | rfl <;> simp [Nat.and_assoc]

set_option maxRecDepth 8192 in
/-- C8: the 4-bit serialization is lossless.  For every byte the original
value is recoverable as `(data & 0xF0) | (((data << 4) & 0xF0) >> 4)`, and
two bytes with the same mode that produce the same pair of 4-bit transfer
payloads are equal. -/
theorem C8_lossless_serialization :
    (∀ data : Nat, data < 256 →
      highBits data ||| (lowBits data >>> 4) = data) ∧
    (∀ d1 d2 mode : Nat, d1 < 256 → d2 < 256 →
      (mode = 0 ∨ mode = LCD_MODE_RS) →
      sendPayloads d1 mode = sendPayloads d2 mode → d1 = d2) := by
  have hrec : ∀ data : Nat, data < 256 →
      highBits data ||| (lowBits data >>> 4) = data := by
    simp only [highBits, lowBits]
    decide
  refine ⟨hrec, ?_⟩
  intro d1 d2 mode h1 h2 hm heq
  have hm' : mode = 0 ∨ mode = 1 := hm
  obtain ⟨e1, e2⟩ : highBits d1 ||| mode = highBits d2 ||| mode ∧
      lowBits d1 ||| mode = lowBits d2 ||| mode := by
    simpa [sendPayloads] using heq
  have f1 : highBits d1 = highBits d2 := by
    have h := congrArg (· &&& 0xF0) e1
    simpa [highBits, mask_payload _ _ hm'] using h
  have f2 : lowBits d1 = lowBits d2 := by
    have h := congrArg (· &&& 0xF0) e2
    simpa [lowBits, mask_payload _ _ hm'] using h
  calc d1 = highBits d1 ||| (lowBits d1 >>> 4) := (hrec d1 h1).symm
    _ = highBits d2 ||| (lowBits d2 >>> 4) := by rw [f1, f2]
    _ = d2 := hrec d2 h2

theorem C8_lossless_serialization_witness :
    ((0x5A : Nat) < 256 ∧ highBits 0x5A ||| (lowBits 0x5A >>> 4) = 0x5A) ∧
    ((0xA5 : Nat) < 256 ∧ ((0 : Nat) = 0 ∨ (0 : Nat) = LCD_MODE_RS) ∧
      sendPayloads 0xA5 0 = sendPayloads 0xA5 0 ∧ (0xA5 : Nat) = 0xA5) :=
  ⟨⟨by decide, C8_lossless_serialization.1 0x5A (by decide)⟩,
   ⟨by decide, Or.inl rfl, rfl,
    C8_lossless_serialization.2 0xA5 0xA5 0 (by decide) (by decide)
      (Or.inl rfl) rfl⟩⟩

theorem lor_lor_self (x m : Nat) : x ||| m ||| m = x ||| m := by
  rw [Nat.or_assoc, Nat.or_self]

theorem ldiff_ldiff_self (x m : Nat) :
    Nat.ldiff (Nat.ldiff x m) m = Nat.ldiff x m := by
  apply Nat.eq_of_testBit_eq
  intro k
  simp [Nat.testBit_ldiff, Bool.and_assoc]

/-- C9: each flag-setting operation is idempotent on the persisted flag
bytes: running it twice with the same argument leaves the same flag state
as running it once. -/
theorem C9_flag_setters_idempotent (s : LCDState) (v : Nat) :
    (blinkOn (blinkOn s v).1 v).1 = (blinkOn s v).1 ∧
    (displayOn (displayOn s v).1 v).1 = (displayOn s v).1 ∧
    (cursorOn (cursorOn s v).1 v).1 = (cursorOn s v).1 ∧
    (setAutoscroll (setAutoscroll s v).1 v).1 = (setAutoscroll s v).1 ∧
    (setTextDirection (setTextDirection s v).1 v).1 =
      (setTextDirection s v).1 ∧
    (setBacklight (setBacklight s v).1 v).1 = (setBacklight s v).1 := by
  by_cases hv : v = 0 <;>
    simp [blinkOn, displayOn, cursorOn, setAutoscroll, setTextDirection,
      setBacklight, hv, lor_lor_self, ldiff_ldiff_self]

theorem ldiff_le (x m : Nat) : Nat.ldiff x m ≤ x := by
  apply Nat.le_of_testBit
  intro k h
  rw [Nat.testBit_ldiff] at h
  exact Bool.and_elim_left h

theorem or8_ne_or4 (x : Nat) (hx : x < 4) : (8 : Nat) ||| x ≠ 4 ||| x := by
  interval_cases x <;> decide

theorem dm_update_lt (dm m st : Nat) (hdm : dm < 4) (hm : m = 1 ∨ m = 2) :
    (if st ≠ 0 then dm ||| m else Nat.ldiff dm m) < 4 := by
  by_cases hst : st = 0
  · simpa [hst] using Nat.lt_of_le_of_lt (ldiff_le dm m) hdm
  · rcases hm with rfl | rfl <;>
      simp only [hst, ne_eq, not_false_iff, if_true] <;>
      interval_cases dm <;> decide

/-- C10: `setAutoscroll` and `setTextDirection` update `_displaymode` but
then transmit it under `LCD_CMD_DISPLAYCONTROL` (0x08), not under
`LCD_CMD_ENTRYMODESET` (0x04) — for every reachable `_displaymode`
(which only ever holds bits 0-1, hence is `< 4`) the two command bytes
differ — whereas `init()` transmits the entry-mode flags under
`LCD_CMD_ENTRYMODESET`. -/
theorem C10_entrymode_under_displaycontrol (s : LCDState) (st dir : Nat)
    (h : s.displaymode < 4) :
    (setAutoscroll s st).2 =
      commandTrace s.backlightval
        (LCD_CMD_DISPLAYCONTROL ||| (setAutoscroll s st).1.displaymode) ∧
    (setTextDirection s dir).2 =
      commandTrace s.backlightval
        (LCD_CMD_DISPLAYCONTROL ||| (setTextDirection s dir).1.displaymode) ∧
    LCD_CMD_DISPLAYCONTROL = 0x08 ∧ LCD_CMD_ENTRYMODESET = 0x04 ∧
    LCD_CMD_DISPLAYCONTROL ||| (setAutoscroll s st).1.displaymode ≠
      LCD_CMD_ENTRYMODESET ||| (setAutoscroll s st).1.displaymode ∧
    LCD_CMD_DISPLAYCONTROL ||| (setTextDirection s dir).1.displaymode ≠
      LCD_CMD_ENTRYMODESET ||| (setTextDirection s dir).1.displaymode ∧
    (∀ op : Op, (runOp op s).1.displaymode < 4) ∧
    (∃ pre post, (init s).2 =
      pre ++ commandTrace LCD_BACKLIGHT
        (LCD_CMD_ENTRYMODESET ||| (init s).1.displaymode) ++ post) := by
  have hA : (setAutoscroll s st).1.displaymode < 4 :=
    dm_update_lt s.displaymode LCD_ENTRYSHIFTINCREMENT st h (Or.inl rfl)
  have hT : (setTextDirection s dir).1.displaymode < 4 :=
    dm_update_lt s.displaymode LCD_ENTRYLEFT dir h (Or.inr rfl)
  refine ⟨rfl, rfl, rfl, rfl, or8_ne_or4 _ hA, or8_ne_or4 _ hT, ?_, ?_⟩
  · intro op
    cases op with
    | clear => exact h
    | home => exact h
    | setBacklight v => exact h
    | loadCustomCharacter arr loc => exact h
    | setAutoscroll st' =>
      exact dm_update_lt s.displaymode LCD_ENTRYSHIFTINCREMENT st' h (Or.inl rfl)
    | setTextDirection d =>
      exact dm_update_lt s.displaymode LCD_ENTRYLEFT d h (Or.inr rfl)
    | scrollLeft => exact h
    | scrollRight => exact h
    | blinkOn st' => exact h
    | displayOn st' => exact h
    | cursorOn st' => exact h
    | setCursorPosition c r => exact h
    | writeString cs => exact h
    | init => show LCD_ENTRYLEFT ||| LCD_ENTRYSHIFTDECREMENT < 4; decide
  refine ⟨write4bitsTrace LCD_BACKLIGHT (0x03 <<< 4) ++ [Event.sleep 5] ++
      write4bitsTrace LCD_BACKLIGHT (0x03 <<< 4) ++ [Event.sleep 5] ++
      write4bitsTrace LCD_BACKLIGHT (0x03 <<< 4) ++ [Event.sleep 5] ++
      write4bitsTrace LCD_BACKLIGHT (0x02 <<< 4) ++
      commandTrace LCD_BACKLIGHT
        (LCD_CMD_FUNCTIONSET ||| LCD_4BITMODE ||| LCD_2LINE ||| LCD_5x8DOTS) ++
      commandTrace LCD_BACKLIGHT
        (LCD_CMD_DISPLAYCONTROL ||| (LCD_DISPLAYON ||| LCD_CURSOROFF ||| LCD_BLINKOFF)),
    (commandTrace LCD_BACKLIGHT LCD_CMD_CLEARDISPLAY ++ [Event.sleep 2]) ++
      (commandTrace LCD_BACKLIGHT LCD_CMD_RETURNHOME ++ [Event.sleep 2]), ?_⟩
  simp [init, clear, home, List.append_assoc]

theorem C10_entrymode_under_displaycontrol_witness :
    initState.displaymode < 4 ∧
    LCD_CMD_DISPLAYCONTROL ||| (setAutoscroll initState 1).1.displaymode ≠
      LCD_CMD_ENTRYMODESET ||| (setAutoscroll initState 1).1.displaymode :=
  ⟨by decide,
   (C10_entrymode_under_displaycontrol initState 1 0 (by decide)).2.2.2.2.1⟩

end LCDModel
